import Mathlib

/-!
# Verification of the mui-virtual-data-table scroll-synchronization logic

Shallow embedding of the scrollbar geometry, gesture handlers, auto-hide
timer logic, scroll-target locator and the host table's range-change /
sort / drag handlers, translated from the TypeScript sources
(`OverlayScrollbar.tsx`, `original/VirtuosoScrollbar.tsx`,
`components/Scrollbar.tsx`, `VirtualDataTable.tsx`).

Pixel and time quantities are modelled as rationals (the sources use JS
numbers; all claims under scrutiny concern exact arithmetic facts that
hold identically over ℚ at the inputs considered).  Stateful React
handlers are modelled as explicit state-passing functions; `useState` /
`useRef` cells become record fields and a handler maps a state (plus the
event payload) to the new state together with any emitted call.
-/

namespace VirtualTable

/-- Clamp `x` into `[lo, hi]`, written as the sources do:
`Math.max(lo, Math.min(hi, x))`. -/
def clampQ (x lo hi : ℚ) : ℚ := max lo (min hi x)

/-! ## OverlayScrollbar (unnamed source file, `OverlayScrollbar.tsx`)

Configuration: `finalThumbConfig` / `finalTrackConfig` /
`finalArrowsConfig` with the source's defaults (`thumb.width ?? 8`,
`thumb.minHeight ?? 50`, `track.margin ?? 4`, `arrows.visible ?? false`).
-/

/-- Defaulted scrollbar configuration of `OverlayScrollbar`
(only the fields the geometry uses). -/
structure OverlayConfig where
  thumbWidth : ℚ := 8
  thumbMinHeight : ℚ := 50
  trackMargin : ℚ := 4
  showArrows : Bool := false

/-- Thumb geometry produced by `updateScrollbar`
(`setThumbHeight` / `setThumbTop`). -/
structure ThumbGeometry where
  thumbTop : ℚ
  thumbHeight : ℚ
deriving DecidableEq, Repr

/-- Reserved arrow/margin space of `updateScrollbar`:
`showArrows ? finalThumbWidth * 2 + finalTrackConfig.margin * 4
            : finalTrackConfig.margin * 2`. -/
def arrowSpace (cfg : OverlayConfig) : ℚ :=
  if cfg.showArrows then cfg.thumbWidth * 2 + cfg.trackMargin * 4
  else cfg.trackMargin * 2

/-- Function `updateScrollbar` of `OverlayScrollbar.tsx` (the geometry part):
```
const availableHeight = containerHeight - arrowSpace;
const scrollRatio = containerHeight / contentHeight;
const calculatedThumbHeight = Math.max(availableHeight * scrollRatio, thumbMinHeight);
const scrollableHeight = contentHeight - containerHeight;
const thumbScrollableHeight = availableHeight - calculatedThumbHeight;
const calculatedThumbTop = scrollableHeight > 0
    ? (scrollTop / scrollableHeight) * thumbScrollableHeight : 0;
```
`containerHeight` is the scroll element's `clientHeight` (the viewport
height) and `contentHeight` its `scrollHeight`. -/
def updateScrollbarGeometry (cfg : OverlayConfig)
    (scrollTop contentHeight containerHeight : ℚ) : ThumbGeometry :=
  let availableHeight := containerHeight - arrowSpace cfg
  let calculatedThumbHeight :=
    max (availableHeight * (containerHeight / contentHeight)) cfg.thumbMinHeight
  let scrollableHeight := contentHeight - containerHeight
  let thumbScrollableHeight := availableHeight - calculatedThumbHeight
  let calculatedThumbTop :=
    if 0 < scrollableHeight then
      (scrollTop / scrollableHeight) * thumbScrollableHeight
    else 0
  ⟨calculatedThumbTop, calculatedThumbHeight⟩

end VirtualTable

namespace VirtualTable

/-- The default configuration (every config field left unset). -/
def defaultOverlayConfig : OverlayConfig := {}

/-- Closed form of the computed thumb top when the content overflows the
viewport (`scrollableHeight > 0` branch of `updateScrollbar`). -/
lemma updateScrollbarGeometry_thumbTop (cfg : OverlayConfig)
    (scrollTop contentHeight containerHeight : ℚ)
    (hscroll : containerHeight < contentHeight) :
    (updateScrollbarGeometry cfg scrollTop contentHeight containerHeight).thumbTop =
      (scrollTop / (contentHeight - containerHeight)) *
        ((containerHeight - arrowSpace cfg) -
          max ((containerHeight - arrowSpace cfg) * (containerHeight / contentHeight))
            cfg.thumbMinHeight) := by
  simp only [updateScrollbarGeometry]
  rw [if_pos (by linarith)]

/-- The computed thumb height of `updateScrollbar`. -/
lemma updateScrollbarGeometry_thumbHeight (cfg : OverlayConfig)
    (scrollTop contentHeight containerHeight : ℚ) :
    (updateScrollbarGeometry cfg scrollTop contentHeight containerHeight).thumbHeight =
      max ((containerHeight - arrowSpace cfg) * (containerHeight / contentHeight))
        cfg.thumbMinHeight := rfl

/-- C1 counterexample.  With the default configuration (minimum thumb
height 50, track margin 4, no arrows), viewport height 40, scroll height
100 (so the content overflows and `scrollTop` ranges over `[0, 60]`),
`updateScrollbar` computes `thumbTop = -18` at `scrollTop = 60`: the
claimed bound `0 <= top` fails, because no clamp is applied and the
configured minimum thumb height (50) exceeds the available track space
(40 - 8 = 32). -/
theorem c1_geometry_counterexample :
    (40 : ℚ) < 100 ∧ (0 : ℚ) ≤ 60 ∧ (60 : ℚ) = 100 - 40 ∧
      (updateScrollbarGeometry defaultOverlayConfig 60 100 40).thumbTop = -18 ∧
      ¬ (0 ≤ (updateScrollbarGeometry defaultOverlayConfig 60 100 40).thumbTop) := by
  norm_num [updateScrollbarGeometry, arrowSpace, defaultOverlayConfig]

/-- C1 (amended).  For every scroll state with
`scrollHeight > viewportHeight` and `0 ≤ scrollTop ≤ maxScrollTop`,
provided the computed thumb height does not exceed the available track
space (`viewportHeight` minus reserved arrow-button space and margins),
the geometry satisfies `0 ≤ top` and `top + height ≤ availableTrackSpace`,
with `top = 0` at `scrollTop = 0` and `top + height = availableTrackSpace`
at `scrollTop = maxScrollTop`.  No clamping is performed by the code:
when the configured minimum thumb height exceeds the available track
space, the computed `top` can be negative (see the counterexample). -/
theorem c1_geometry_amended (cfg : OverlayConfig)
    (scrollTop contentHeight containerHeight : ℚ)
    (hscroll : containerHeight < contentHeight)
    (h0 : 0 ≤ scrollTop)
    (hmax : scrollTop ≤ contentHeight - containerHeight)
    (hthumb : (updateScrollbarGeometry cfg scrollTop contentHeight containerHeight).thumbHeight ≤
      containerHeight - arrowSpace cfg) :
    0 ≤ (updateScrollbarGeometry cfg scrollTop contentHeight containerHeight).thumbTop ∧
    (updateScrollbarGeometry cfg scrollTop contentHeight containerHeight).thumbTop +
        (updateScrollbarGeometry cfg scrollTop contentHeight containerHeight).thumbHeight ≤
      containerHeight - arrowSpace cfg ∧
    (scrollTop = 0 →
      (updateScrollbarGeometry cfg scrollTop contentHeight containerHeight).thumbTop = 0) ∧
    (scrollTop = contentHeight - containerHeight →
      (updateScrollbarGeometry cfg scrollTop contentHeight containerHeight).thumbTop +
          (updateScrollbarGeometry cfg scrollTop contentHeight containerHeight).thumbHeight =
        containerHeight - arrowSpace cfg) := by
  have hS : (0 : ℚ) < contentHeight - containerHeight := by linarith
  rw [updateScrollbarGeometry_thumbHeight] at hthumb
  rw [updateScrollbarGeometry_thumbTop cfg scrollTop contentHeight containerHeight hscroll,
    updateScrollbarGeometry_thumbHeight]
  set A := containerHeight - arrowSpace cfg with hA
  set h := max (A * (containerHeight / contentHeight)) cfg.thumbMinHeight with hh
  have hfrac0 : 0 ≤ scrollTop / (contentHeight - containerHeight) := div_nonneg h0 hS.le
  have hfrac1 : scrollTop / (contentHeight - containerHeight) ≤ 1 :=
    (div_le_one hS).mpr hmax
  have hAh : 0 ≤ A - h := by linarith
  refine ⟨mul_nonneg hfrac0 hAh, ?_, ?_, ?_⟩
  · have := mul_le_of_le_one_left hAh hfrac1
    linarith
  · intro hzero; rw [hzero, zero_div, zero_mul]
  · intro hend
    rw [hend, div_self hS.ne']
    ring

/-- C1 witness: a concrete in-range state (viewport 100, content 200,
`scrollTop = 30`, default configuration) where the amended bounds hold. -/
theorem c1_geometry_amended_witness :
    0 ≤ (updateScrollbarGeometry defaultOverlayConfig 30 200 100).thumbTop ∧
    (updateScrollbarGeometry defaultOverlayConfig 30 200 100).thumbTop +
        (updateScrollbarGeometry defaultOverlayConfig 30 200 100).thumbHeight ≤
      100 - arrowSpace defaultOverlayConfig ∧
    ((30 : ℚ) = 0 →
      (updateScrollbarGeometry defaultOverlayConfig 30 200 100).thumbTop = 0) ∧
    ((30 : ℚ) = 200 - 100 →
      (updateScrollbarGeometry defaultOverlayConfig 30 200 100).thumbTop +
          (updateScrollbarGeometry defaultOverlayConfig 30 200 100).thumbHeight =
        100 - arrowSpace defaultOverlayConfig) :=
  c1_geometry_amended defaultOverlayConfig 30 200 100 (by norm_num) (by norm_num)
    (by norm_num)
    (by norm_num [updateScrollbarGeometry, arrowSpace, defaultOverlayConfig])

/-! ### Thumb drag (`handleMouseMove` of `OverlayScrollbar.tsx`, and the
identical arithmetic of `original/VirtuosoScrollbar.tsx`)

```
const deltaY = event.clientY - dragStart.y;
const thumbScrollableHeight = containerHeight - thumbHeight;
const scrollDelta = (deltaY / thumbScrollableHeight) * scrollableHeight;
const newScrollTop = Math.max(0, Math.min(scrollableHeight, dragStart.scrollTop + scrollDelta));
actualScrollContainer.scrollTop = newScrollTop;
```
where `scrollableHeight = contentHeight - containerHeight`. -/

/-- The `scrollTop` value written by a pointer-move during a thumb drag. -/
def handleThumbMouseMove (dragStartY dragStartScrollTop clientY
    containerHeight contentHeight thumbHeight : ℚ) : ℚ :=
  let scrollableHeight := contentHeight - containerHeight
  let thumbScrollableHeight := containerHeight - thumbHeight
  let deltaY := clientY - dragStartY
  let scrollDelta := (deltaY / thumbScrollableHeight) * scrollableHeight
  max 0 (min scrollableHeight (dragStartScrollTop + scrollDelta))

/-- C3: during a thumb drag started at `scrollTop = S`, a pointer-move with
vertical pixel delta `D = clientY - dragStartY` writes
`clamp(S + Δ, 0, maxScrollTop)` with
`Δ = (D / (viewportHeight - thumbHeight)) * (scrollHeight - viewportHeight)`
and `maxScrollTop = scrollHeight - viewportHeight`; consequently the
written value lies in `[0, maxScrollTop]` whenever the content overflows
the viewport. -/
theorem c3_thumb_drag_write (dragStartY s clientY containerHeight contentHeight
    thumbHeight : ℚ)
    (hscroll : containerHeight ≤ contentHeight) :
    handleThumbMouseMove dragStartY s clientY containerHeight contentHeight thumbHeight =
      clampQ (s + ((clientY - dragStartY) / (containerHeight - thumbHeight)) *
          (contentHeight - containerHeight))
        0 (contentHeight - containerHeight) ∧
    0 ≤ handleThumbMouseMove dragStartY s clientY containerHeight contentHeight thumbHeight ∧
    handleThumbMouseMove dragStartY s clientY containerHeight contentHeight thumbHeight ≤
      contentHeight - containerHeight := by
  refine ⟨rfl, le_max_left _ _, ?_⟩
  unfold handleThumbMouseMove
  have hmax : (0 : ℚ) ≤ contentHeight - containerHeight := by linarith
  exact max_le hmax (min_le_left _ _)

/-- C3 witness: drag session started at `scrollTop = 100`, pointer moved
from `y = 10` to `y = 30`, viewport 100, content 300, thumb height 50:
the written value is `clamp(100 + (20/50)*200, 0, 200) = 180`. -/
theorem c3_thumb_drag_write_witness :
    handleThumbMouseMove 10 100 30 100 300 50 =
      clampQ (100 + ((30 - 10) / (100 - 50)) * (300 - 100)) 0 (300 - 100) ∧
    0 ≤ handleThumbMouseMove 10 100 30 100 300 50 ∧
    handleThumbMouseMove 10 100 30 100 300 50 ≤ 300 - 100 :=
  c3_thumb_drag_write 10 100 30 100 300 50 (by norm_num)

/-! ### Auto-hide visibility (`setHideTimer`, `handleThumbMouseDown` and the
scroll-event handler of `OverlayScrollbar.tsx`; `setHideTimer` of
`original/VirtuosoScrollbar.tsx`)

React state updates are modelled synchronously; `hideTimeoutRef.current`
becomes the boolean `pendingHide` (at most one pending timer exists, since
`setHideTimer` always clears first). -/

/-- Visibility-relevant state: `scrollbarVisible`, `isDragging`, and
whether a hide timer is pending (`hideTimeoutRef.current !== null`). -/
structure OverlayVisState where
  visible : Bool
  isDragging : Bool
  pendingHide : Bool
deriving DecidableEq, Repr

/-- Function `clearHideTimer` of `OverlayScrollbar.tsx`. -/
def overlayClearHideTimer (s : OverlayVisState) : OverlayVisState :=
  { s with pendingHide := false }

/-- Function `setHideTimer` of `OverlayScrollbar.tsx`: no-op when auto-hide is
disabled, otherwise clears any pending timer and schedules a new one. -/
def overlaySetHideTimer (autoHideEnabled : Bool) (s : OverlayVisState) : OverlayVisState :=
  if autoHideEnabled then { s with pendingHide := true } else s

/-- The pending hide timer of `OverlayScrollbar.tsx` firing.  The callback
is `() => { setScrollbarVisible(false); hideTimeoutRef.current = null; }`:
it does NOT consult the drag state. -/
def overlayFireHideTimer (s : OverlayVisState) : OverlayVisState :=
  if s.pendingHide then { s with visible := false, pendingHide := false } else s

/-- Function `handleThumbMouseDown` of `OverlayScrollbar.tsx` (visibility effects):
`setIsDragging(true); ...; clearHideTimer(); setScrollbarVisible(true)`. -/
def overlayThumbMouseDown (s : OverlayVisState) : OverlayVisState :=
  { overlayClearHideTimer s with isDragging := true, visible := true }

/-- The scroll-event handler of `OverlayScrollbar.tsx` (visibility
effects): `clearHideTimer(); setScrollbarVisible(true); setHideTimer(delay)`.
It runs whenever the scroll element scrolls — including scrolls caused by
a thumb drag writing `scrollTop`. -/
def overlayScrollEvent (autoHideEnabled : Bool) (s : OverlayVisState) : OverlayVisState :=
  overlaySetHideTimer autoHideEnabled
    { overlayClearHideTimer s with visible := true }

/-- The pending hide timer of `original/VirtuosoScrollbar.tsx` firing.
There the callback is `() => { if (!isDragging) { setScrollbarVisible(false); } }`:
it checks the drag flag and no-ops while dragging. -/
def originalFireHideTimer (s : OverlayVisState) : OverlayVisState :=
  if s.pendingHide then
    if s.isDragging then { s with pendingHide := false }
    else { s with visible := false, pendingHide := false }
  else s

/-- C2 counterexample.  In `OverlayScrollbar.tsx` (auto-hide enabled), start
a thumb drag, let the drag's own `scrollTop` write deliver a scroll event
(which schedules a hide timer), then let that timer fire: the timer
callback hides the scrollbar even though the drag session is still
active — `isDragging = true` and `visible = false` afterwards. -/
theorem c2_autohide_counterexample :
    (overlayFireHideTimer (overlayScrollEvent true
        (overlayThumbMouseDown ⟨false, false, false⟩))).isDragging = true ∧
    (overlayFireHideTimer (overlayScrollEvent true
        (overlayThumbMouseDown ⟨false, false, false⟩))).visible = false := by
  decide

/-- C2 (amended).  Only `original/VirtuosoScrollbar.tsx` checks the drag
state inside the timer callback: there, a timer firing while
`isDragging = true` leaves visibility unchanged.  In `OverlayScrollbar`
the callback hides unconditionally; drag start merely clears any pending
timer (so a timer scheduled before the drag never fires during it), and a
timer scheduled by scroll activity during the drag does hide the
scrollbar (see the counterexample). -/
theorem c2_autohide_amended (s : OverlayVisState) (h : s.isDragging = true) :
    (originalFireHideTimer s).visible = s.visible ∧
    (overlayThumbMouseDown s).pendingHide = false := by
  constructor
  · unfold originalFireHideTimer
    rcases s with ⟨v, d, p⟩
    cases p <;> simp_all
  · rfl

/-- C2 witness: a dragging state with a pending timer; the original's
timer callback leaves the scrollbar visible, and a thumb mouse-down
clears the pending timer. -/
theorem c2_autohide_amended_witness :
    (originalFireHideTimer ⟨true, true, true⟩).visible = (true : Bool) ∧
    (overlayThumbMouseDown ⟨true, true, true⟩).pendingHide = false :=
  c2_autohide_amended ⟨true, true, true⟩ rfl


/-! ## Keyboard paging (`components/Scrollbar.tsx`, `VirtuosoScrollbar`)

Handler `handleKeyboardScroll`:
```
const maxScrollTop = Math.max(0, scrollHeight - containerHeight);
case "up":   targetScrollTop = Math.max(0, scrollTop - containerHeight * 0.9);
case "down": targetScrollTop = Math.min(maxScrollTop, scrollTop + containerHeight * 0.9);
case "home": targetScrollTop = 0;
case "end":  targetScrollTop = maxScrollTop;
```
and `handleKeyDown` maps `PageUp/PageDown/Home/End` to
`up/down/home/end`. -/

/-- Direction argument of `handleKeyboardScroll`. -/
inductive KeyScrollDir
  | up
  | down
  | homeKey
  | endKey
deriving DecidableEq, Repr

/-- Target `scrollTop` computed by `handleKeyboardScroll`. -/
def handleKeyboardScroll (dir : KeyScrollDir)
    (scrollTop contentHeight containerHeight : ℚ) : ℚ :=
  let maxScrollTop := max 0 (contentHeight - containerHeight)
  match dir with
  | .up => max 0 (scrollTop - containerHeight * (9 / 10))
  | .down => min maxScrollTop (scrollTop + containerHeight * (9 / 10))
  | .homeKey => 0
  | .endKey => maxScrollTop

/-- Key dispatch of `handleKeyDown` (`switch (e.code)`). -/
def keyCodeToDir (code : String) : Option KeyScrollDir :=
  if code = "PageUp" then some .up
  else if code = "PageDown" then some .down
  else if code = "Home" then some .homeKey
  else if code = "End" then some .endKey
  else none

/-- C7: with the container focused and a browser-valid scroll state
(`0 ≤ scrollTop ≤ maxScrollTop`, non-negative viewport not taller than the
content), PageUp/PageDown move `scrollTop` by 90% of the viewport height
clamped to `[0, maxScrollTop]`, Home jumps to `0`, and End jumps to
`maxScrollTop = scrollHeight - viewportHeight`; `handleKeyDown` routes the
four key codes to these actions. -/
theorem c7_keyboard_paging (scrollTop contentHeight containerHeight : ℚ)
    (hch : 0 ≤ containerHeight) (hsc : containerHeight ≤ contentHeight)
    (h0 : 0 ≤ scrollTop) (hmax : scrollTop ≤ contentHeight - containerHeight) :
    handleKeyboardScroll .up scrollTop contentHeight containerHeight =
      clampQ (scrollTop - containerHeight * (9 / 10)) 0 (contentHeight - containerHeight) ∧
    handleKeyboardScroll .down scrollTop contentHeight containerHeight =
      clampQ (scrollTop + containerHeight * (9 / 10)) 0 (contentHeight - containerHeight) ∧
    handleKeyboardScroll .homeKey scrollTop contentHeight containerHeight = 0 ∧
    handleKeyboardScroll .endKey scrollTop contentHeight containerHeight =
      contentHeight - containerHeight ∧
    keyCodeToDir "PageUp" = some .up ∧ keyCodeToDir "PageDown" = some .down ∧
    keyCodeToDir "Home" = some .homeKey ∧ keyCodeToDir "End" = some .endKey := by
  have hS : (0 : ℚ) ≤ contentHeight - containerHeight := by linarith
  have hstep : (0 : ℚ) ≤ containerHeight * (9 / 10) := by positivity
  have hmaxeq : max (0 : ℚ) (contentHeight - containerHeight) =
      contentHeight - containerHeight := max_eq_right hS
  refine ⟨?_, ?_, rfl, ?_, rfl, rfl, rfl, rfl⟩
  · show max 0 (scrollTop - containerHeight * (9 / 10)) = _
    rw [clampQ, min_eq_right (by linarith)]
  · show min (max 0 (contentHeight - containerHeight)) _ = _
    rw [hmaxeq, clampQ, max_eq_right (le_min hS (by linarith))]
  · show max (0 : ℚ) (contentHeight - containerHeight) = _
    exact hmaxeq

/-- C7 witness: viewport 100, content 300, `scrollTop = 50`; PageUp clamps
to `0`, PageDown reaches `140`, Home `0`, End `200`. -/
theorem c7_keyboard_paging_witness :
    handleKeyboardScroll .up 50 300 100 = clampQ (50 - 100 * (9 / 10)) 0 (300 - 100) ∧
    handleKeyboardScroll .down 50 300 100 = clampQ (50 + 100 * (9 / 10)) 0 (300 - 100) ∧
    handleKeyboardScroll .homeKey 50 300 100 = 0 ∧
    handleKeyboardScroll .endKey 50 300 100 = 300 - 100 ∧
    keyCodeToDir "PageUp" = some .up ∧ keyCodeToDir "PageDown" = some .down ∧
    keyCodeToDir "Home" = some .homeKey ∧ keyCodeToDir "End" = some .endKey :=
  c7_keyboard_paging 50 300 100 (by norm_num) (by norm_num) (by norm_num) (by norm_num)


/-! ## Scroll-target locator (`findScrollableElement` of `OverlayScrollbar.tsx`)

The DOM is abstracted as: the optionally-cached element, the root
container (`containerRef.current`), the inner content element's
`scrollHeight` (`contentRef.current?.scrollHeight`), and the list of
descendants matching the virtualization-engine marker selectors
(`querySelectorAll('[data-virtuoso-scroller], [style*="overflow"], ...')`)
in document order. -/

/-- A DOM element, reduced to the attributes the locator reads.
`attached` models `document.contains(e)`. -/
structure DomElem where
  elemId : ℕ
  attached : Bool
  scrollHeight : ℚ
  clientHeight : ℚ
deriving DecidableEq, Repr

/-- Scrollability test used throughout the locator:
`e.scrollHeight > e.clientHeight + 2` (2px epsilon). -/
def elemOverflows (e : DomElem) : Bool :=
  decide (e.clientHeight + 2 < e.scrollHeight)

/-- The DOM as seen by one `findScrollableElement` call. -/
structure DomView where
  cached : Option DomElem
  container : Option DomElem
  contentScrollHeight : Option ℚ
  markerDescendants : List DomElem
deriving Repr

/-- Cache revalidation:
`document.contains(cached) && cached.scrollHeight > cached.clientHeight + 2`. -/
def cacheValid (c : DomElem) : Bool := c.attached && elemOverflows c

/-- The search part of `findScrollableElement` (runs when no valid cached
element exists): first the root container itself, if the inner content's
`scrollHeight` exceeds the container's `clientHeight + 2`; otherwise the
first marker descendant with `scrollHeight > clientHeight + 2`;
otherwise `null`. -/
def searchScrollable (d : DomView) : Option DomElem :=
  match d.container with
  | none => none
  | some root =>
    match d.contentScrollHeight with
    | some contentH =>
        if root.clientHeight + 2 < contentH then some root
        else d.markerDescendants.find? elemOverflows
    | none => d.markerDescendants.find? elemOverflows

/-- Function `findScrollableElement` of `OverlayScrollbar.tsx`: reuse the
cached element when it is still attached and still overflowing, else
search. -/
def findScrollableElement (d : DomView) : Option DomElem :=
  match d.cached with
  | some c => if cacheValid c then some c else searchScrollable d
  | none => searchScrollable d

/-- C5: the locator returns the cached element exactly when it is still
attached and its `scrollHeight` exceeds its `clientHeight` by more than
the 2px epsilon; otherwise it searches the root's own content and then
the marker descendants, returning the first one whose scrollable height
exceeds its visible height (by the same epsilon), and returns `none`
rather than failing when nothing qualifies. -/
theorem c5_scroll_target_locator (d : DomView) :
    (∀ c, d.cached = some c → c.attached = true → elemOverflows c = true →
      findScrollableElement d = some c) ∧
    ((∀ c, d.cached = some c → cacheValid c = false) →
      findScrollableElement d = searchScrollable d) ∧
    (∀ root contentH, d.container = some root → d.contentScrollHeight = some contentH →
      searchScrollable d =
        if root.clientHeight + 2 < contentH then some root
        else d.markerDescendants.find? elemOverflows) ∧
    (d.container = none → searchScrollable d = none) ∧
    ((∀ c, d.cached = some c → cacheValid c = false) →
      ∀ root contentH, d.container = some root → d.contentScrollHeight = some contentH →
      ¬ (root.clientHeight + 2 < contentH) →
      d.markerDescendants.find? elemOverflows = none →
      findScrollableElement d = none) := by
  obtain ⟨cached, container, contentH, descendants⟩ := d
  refine ⟨?_, ?_, ?_, ?_, ?_⟩
  · rintro c rfl hatt hover
    simp [findScrollableElement, cacheValid, hatt, hover]
  · intro hinv
    cases cached with
    | none => rfl
    | some c => simp [findScrollableElement, hinv c rfl]
  · rintro root cH rfl rfl
    rfl
  · rintro rfl
    rfl
  · intro hinv root cH hroot hcont hnot hfind
    cases hroot; cases hcont
    have h2 : findScrollableElement ⟨cached, some root, some cH, descendants⟩ =
        searchScrollable ⟨cached, some root, some cH, descendants⟩ := by
      cases cached with
      | none => rfl
      | some c => simp [findScrollableElement, hinv c rfl]
    rw [h2]
    simp [searchScrollable, hnot, hfind]

/-- C5 witness: a stale cache (detached element), a root whose content
overflows by more than 2px: the locator falls back to the search and
returns the root container. -/
theorem c5_scroll_target_locator_witness :
    findScrollableElement
        ⟨some ⟨0, false, 500, 100⟩, some ⟨1, true, 300, 100⟩, some 250, []⟩ =
      some ⟨1, true, 300, 100⟩ := by
  have h := (c5_scroll_target_locator
    ⟨some ⟨0, false, 500, 100⟩, some ⟨1, true, 300, 100⟩, some 250, []⟩).2.1
    (by intro c hc; cases hc; rfl)
  rw [h]
  norm_num [searchScrollable]


/-! ## Host table (`VirtualDataTable.tsx`)

Range-change / infinite-scroll trigger, sort toggle, content drag-scroll
and row rendering.  The debounce timestamp lives on the `window` object
(`(window as any).lastRangeChangeTime`), i.e. it is a single global cell
shared by every table instance on the page; the model therefore threads
it separately from the per-instance state. -/

/-- Arguments of an `onLoadMore(offset, limit)` invocation. -/
structure LoadCall where
  offset : ℕ
  limit : ℕ
deriving DecidableEq, Repr

/-- Per-instance state read by `handleRangeChange`: `data.length`, the
`loading` prop, whether `onLoadMore` was supplied, and the in-flight flag
`isLoadingMoreRef.current`. -/
structure TableInstState where
  dataLength : ℕ
  loading : Bool
  hasOnLoadMore : Bool
  isLoadingMore : Bool
deriving DecidableEq, Repr

/-- Buffer size: `Math.max(10, Math.floor(data.length * 0.1))`.  The
float product `n * 0.1` rounds to `n / 10` exactly at every length this
development evaluates it at (in particular `40 * 0.1` floors to `4`), so
the exact rational floor `n / 10` is used. -/
def bufferSize (dataLength : ℕ) : ℕ := max 10 (dataLength / 10)

/-- Function `handleRangeChange` of `VirtualDataTable.tsx`.  Returns the
new global timestamp, the new instance state, and the `onLoadMore` call
emitted (if any):
```
if (!onLoadMore) return;
if (loading && data.length === 0) return;
const now = Date.now();
const lastTime = (window as any).lastRangeChangeTime || 0;
if (now - lastTime < 100) return;
(window as any).lastRangeChangeTime = now;
const bufferSize = Math.max(10, Math.floor(data.length * 0.1));
const shouldLoadMore = range.endIndex >= data.length - bufferSize;
const hasMinimumData = data.length >= 30;
if (shouldLoadMore && hasMinimumData && onLoadMore && !isLoadingMoreRef.current) {
    isLoadingMoreRef.current = true;
    onLoadMore(data.length, 50);
}
```
-/
def handleRangeChange (globalLastTime : ℤ) (s : TableInstState)
    (endIndex now : ℤ) : ℤ × TableInstState × Option LoadCall :=
  if !s.hasOnLoadMore then (globalLastTime, s, none)
  else if s.loading && decide (s.dataLength = 0) then (globalLastTime, s, none)
  else if now - globalLastTime < 100 then (globalLastTime, s, none)
  else
    if (s.dataLength : ℤ) - bufferSize s.dataLength ≤ endIndex ∧
        30 ≤ s.dataLength ∧ s.isLoadingMore = false then
      (now, { s with isLoadingMore := true }, some ⟨s.dataLength, 50⟩)
    else (now, s, none)

/-- Effect of `VirtualDataTable.tsx` lines 380-384: whenever the
`loading` prop transitions to `false`, the in-flight flag is cleared. -/
def loadingPropEffect (s : TableInstState) (newLoading : Bool) : TableInstState :=
  if newLoading then { s with loading := true }
  else { s with loading := false, isLoadingMore := false }

/-- C4: with `data.length = 40` (`bufferSize = max(10, floor(4)) = 10`),
`onLoadMore` provided, no load in flight and the 100ms debounce elapsed,
a range-changed event with `endIndex = 29` emits no load call (only the
timestamp is updated), while `endIndex = 30` emits exactly one
`onLoadMore(40, 50)` and sets the in-flight flag; a further event while
the flag is set emits nothing even after the debounce. -/
theorem c4_infinite_scroll_trigger (g now later : ℤ) (loading : Bool)
    (hdeb : 100 ≤ now - g) (hlater : 100 ≤ later - now) :
    handleRangeChange g ⟨40, loading, true, false⟩ 29 now =
      (now, ⟨40, loading, true, false⟩, none) ∧
    handleRangeChange g ⟨40, loading, true, false⟩ 30 now =
      (now, ⟨40, loading, true, true⟩, some ⟨40, 50⟩) ∧
    handleRangeChange now ⟨40, loading, true, true⟩ 30 later =
      (later, ⟨40, loading, true, true⟩, none) := by
  refine ⟨?_, ?_, ?_⟩ <;>
    simp only [handleRangeChange, bufferSize] <;>
    cases loading <;> simp <;> omega

/-- C4 witness: timestamps `g = 0`, `now = 100`, `later = 200`,
`loading = false`. -/
theorem c4_infinite_scroll_trigger_witness :
    handleRangeChange 0 ⟨40, false, true, false⟩ 29 100 =
      (100, ⟨40, false, true, false⟩, none) ∧
    handleRangeChange 0 ⟨40, false, true, false⟩ 30 100 =
      (100, ⟨40, false, true, true⟩, some ⟨40, 50⟩) ∧
    handleRangeChange 100 ⟨40, false, true, true⟩ 30 200 =
      (200, ⟨40, false, true, true⟩, none) :=
  c4_infinite_scroll_trigger 0 100 200 false (by norm_num) (by norm_num)

/-- C8: the debounce timestamp is one global cell shared by all table
instances.  If instance A handles a range-changed event at time `tA`
(writing the global timestamp), then an event handled by instance B at
any `tB ∈ [tA, tA + 100)` is ignored — no `onLoadMore` call, no state
change, timestamp untouched — even when B satisfies every load condition
of its own. -/
theorem c8_cross_instance_debounce (g tA tB eA eB : ℤ)
    (sA sB : TableInstState)
    (hA1 : sA.hasOnLoadMore = true)
    (hA2 : ¬ (sA.loading = true ∧ sA.dataLength = 0))
    (hA3 : 100 ≤ tA - g)
    (hB1 : sB.hasOnLoadMore = true)
    (hB2 : ¬ (sB.loading = true ∧ sB.dataLength = 0))
    (hT1 : tA ≤ tB) (hT2 : tB - tA < 100) :
    (handleRangeChange g sA eA tA).1 = tA ∧
    handleRangeChange (handleRangeChange g sA eA tA).1 sB eB tB = (tA, sB, none) := by
  have hloadA : ¬ ((sA.loading && decide (sA.dataLength = 0)) = true) := by
    simp only [Bool.and_eq_true, decide_eq_true_eq]
    exact fun h => hA2 ⟨h.1, h.2⟩
  have hwriteA : (handleRangeChange g sA eA tA).1 = tA := by
    simp only [handleRangeChange, hA1, Bool.not_true, Bool.false_eq_true, if_false,
      hloadA]
    rw [if_neg (by omega)]
    split <;> rfl
  refine ⟨hwriteA, ?_⟩
  rw [hwriteA]
  have hloadB : ¬ ((sB.loading && decide (sB.dataLength = 0)) = true) := by
    simp only [Bool.and_eq_true, decide_eq_true_eq]
    exact fun h => hB2 ⟨h.1, h.2⟩
  simp only [handleRangeChange, hB1, Bool.not_true, Bool.false_eq_true, if_false,
    hloadB]
  rw [if_pos (by omega)]

/-- C8 witness: two identical instances with 40 loaded rows; A fires at
`t = 100` (debounce satisfied against an initial timestamp 0), B's event
at `t = 150` with `endIndex = 30` — which would otherwise trigger a
load — is dropped. -/
theorem c8_cross_instance_debounce_witness :
    (handleRangeChange 0 ⟨40, false, true, false⟩ 30 100).1 = 100 ∧
    handleRangeChange (handleRangeChange 0 ⟨40, false, true, false⟩ 30 100).1
        ⟨40, false, true, false⟩ 30 150 = (100, ⟨40, false, true, false⟩, none) :=
  c8_cross_instance_debounce 0 100 150 30 30 ⟨40, false, true, false⟩
    ⟨40, false, true, false⟩ rfl (by simp) (by norm_num) rfl (by simp)
    (by norm_num) (by norm_num)


/-! ### Sort toggle (`handleSort` of `VirtualDataTable.tsx`) -/

/-- Sort direction, as in `types.ts`. -/
inductive SortDirection
  | asc
  | desc
deriving DecidableEq, Repr

/-- Function `handleSort` of `VirtualDataTable.tsx`:
```
if (!onSort) return;
const newDirection = sortBy === columnId && sortDirection === "asc" ? "desc" : "asc";
onSort(columnId, newDirection);
```
Returns the `(columnId, direction)` pair passed to `onSort`, or `none`
when no `onSort` callback was supplied. -/
def handleSort (hasOnSort : Bool) (sortBy : Option String)
    (sortDirection : Option SortDirection) (columnId : String) :
    Option (String × SortDirection) :=
  if hasOnSort then
    some (columnId,
      if sortBy = some columnId ∧ sortDirection = some .asc then .desc else .asc)
  else none

/-- C6: a sort click reports `desc` exactly when the clicked column is the
currently-sorted one with ascending direction, and `asc` in every other
case; concretely, from `sortBy = undefined` clicking "age" yields
`("age", asc)`, clicking "age" again (after the consumer adopted that
state) yields `("age", desc)`, and clicking "name" then yields
`("name", asc)`. -/
theorem c6_sort_toggle :
    (∀ (sb : Option String) (sd : Option SortDirection) (col : String),
      handleSort true sb sd col =
        some (col, if sb = some col ∧ sd = some .asc then .desc else .asc)) ∧
    handleSort true none none "age" = some ("age", .asc) ∧
    handleSort true (some "age") (some .asc) "age" = some ("age", .desc) ∧
    handleSort true (some "age") (some .desc) "name" = some ("name", .asc) := by
  refine ⟨fun sb sd col => rfl, ?_, ?_, ?_⟩ <;> simp [handleSort]

/-! ### Content drag-scroll (`handleMouseMove` / `handleMouseUp` of
`VirtualDataTable.tsx`, lines 213-286)

These handlers accumulate `totalDragDistanceRef.current += -(deltaY * 2)`
(double sensitivity, opposite direction), write
`scrollTop = Math.max(0, initialScrollTop + totalDragDistance)` on every
recognized move, and re-assert the same value on release.  There is no
upper clamp against `maxScrollTop`. -/

/-- Drag-scroll refs of `VirtualDataTable.tsx` plus the last `scrollTop`
value written to the scroll container. -/
structure ContentDragState where
  isMouseDown : Bool
  isDragging : Bool
  dragStartY : ℚ
  initialScrollTop : ℚ
  totalDragDistance : ℚ
  scrollTop : ℚ
deriving Repr

/-- Function `handleMouseMove` of `VirtualDataTable.tsx` (content
drag-scroll): a move is recognized once `|deltaY| > 5`; while dragging it
accumulates `-(deltaY * 2)` and writes
`Math.max(0, initialScrollTop + totalDragDistance)`, then rebases
`dragStart.y` to the current pointer position. -/
def contentMouseMove (s : ContentDragState) (clientY : ℚ) : ContentDragState :=
  if !s.isMouseDown then s
  else
    let deltaY := clientY - s.dragStartY
    if s.isDragging || decide (5 < |deltaY|) then
      let total := s.totalDragDistance + -(deltaY * 2)
      { s with isDragging := true, totalDragDistance := total,
               scrollTop := max 0 (s.initialScrollTop + total),
               dragStartY := clientY }
    else s

/-- Function `handleMouseUp` of `VirtualDataTable.tsx`: when a drag was in
progress, re-asserts `Math.max(0, initialScrollTop + totalDragDistance)`
(immediately and via short-delay timeouts, all writing the same value),
then resets the drag state. -/
def contentMouseUp (s : ContentDragState) : ContentDragState :=
  let s1 := if s.isDragging then
      { s with scrollTop := max 0 (s.initialScrollTop + s.totalDragDistance) }
    else s
  { s1 with isMouseDown := false, isDragging := false, totalDragDistance := 0 }

/-- C9: every `scrollTop` the content drag-scroll writes — on a recognized
move and on release — equals `max(0, initialScrollTop + accumulatedDragDistance)`
(so it is never negative), and no upper clamp is applied: a single
recognized upward move of 100px from `scrollTop = 0` writes `200`, which
exceeds a `maxScrollTop` of `100`. -/
theorem c9_content_drag_unclamped (s : ContentDragState) (clientY : ℚ)
    (hdown : s.isMouseDown = true) :
    (s.isDragging = true →
      (contentMouseMove s clientY).scrollTop =
        max 0 (s.initialScrollTop +
          (s.totalDragDistance + -((clientY - s.dragStartY) * 2))) ∧
      (contentMouseUp s).scrollTop =
        max 0 (s.initialScrollTop + s.totalDragDistance)) ∧
    (0 ≤ s.scrollTop → 0 ≤ (contentMouseMove s clientY).scrollTop ∧
      0 ≤ (contentMouseUp s).scrollTop) ∧
    (contentMouseMove ⟨true, false, 0, 0, 0, 0⟩ (-100)).scrollTop = 200 ∧
    (contentMouseUp (contentMouseMove ⟨true, false, 0, 0, 0, 0⟩ (-100))).scrollTop = 200 ∧
    (100 : ℚ) < 200 := by
  refine ⟨?_, ?_, ?_, ?_, by norm_num⟩
  · intro hdrag
    constructor
    · simp [contentMouseMove, hdown, hdrag]
    · simp [contentMouseUp, hdrag]
  · intro hnn
    constructor
    · by_cases h2 : (s.isDragging || decide (5 < |clientY - s.dragStartY|)) = true
      · have : (contentMouseMove s clientY).scrollTop =
            max 0 (s.initialScrollTop +
              (s.totalDragDistance + -((clientY - s.dragStartY) * 2))) := by
          simp [contentMouseMove, hdown, h2]
        rw [this]
        exact le_max_left _ _
      · have : (contentMouseMove s clientY).scrollTop = s.scrollTop := by
          simp [contentMouseMove, hdown, h2]
        rw [this]
        exact hnn
    · by_cases h3 : s.isDragging = true
      · have : (contentMouseUp s).scrollTop =
            max 0 (s.initialScrollTop + s.totalDragDistance) := by
          simp [contentMouseUp, h3]
        rw [this]
        exact le_max_left _ _
      · have : (contentMouseUp s).scrollTop = s.scrollTop := by
          simp [contentMouseUp, h3]
        rw [this]
        exact hnn
  · norm_num [contentMouseMove]
  · norm_num [contentMouseMove, contentMouseUp]

/-- C9 witness: an active drag session (`isMouseDown`, `isDragging`) at
`initialScrollTop = 40` with 20 accumulated pixels, pointer moving from
`y = 10` to `y = 4`: the move writes `max(0, 40 + (20 + 12)) = 72`. -/
theorem c9_content_drag_unclamped_witness :
    ((true : Bool) = true →
      (contentMouseMove ⟨true, true, 10, 40, 20, 60⟩ 4).scrollTop =
        max 0 (40 + (20 + -(((4 : ℚ) - 10) * 2))) ∧
      (contentMouseUp ⟨true, true, 10, 40, 20, 60⟩).scrollTop = max 0 (40 + 20)) ∧
    ((0 : ℚ) ≤ 60 → 0 ≤ (contentMouseMove ⟨true, true, 10, 40, 20, 60⟩ 4).scrollTop ∧
      0 ≤ (contentMouseUp ⟨true, true, 10, 40, 20, 60⟩).scrollTop) ∧
    (contentMouseMove ⟨true, false, 0, 0, 0, 0⟩ (-100)).scrollTop = 200 ∧
    (contentMouseUp (contentMouseMove ⟨true, false, 0, 0, 0, 0⟩ (-100))).scrollTop = 200 ∧
    (100 : ℚ) < 200 :=
  c9_content_drag_unclamped ⟨true, true, 10, 40, 20, 60⟩ 4 rfl

/-! ### Phantom load-more row (`totalCount` and `rowContent` of
`VirtualDataTable.tsx`) -/

/-- A column as `rowContent` consumes it: an optional custom render
function (`column.render?.(item, index)`) and the default rendering
`String(item[column.id] || "")`, abstracted as a field accessor. -/
structure ColumnSpec (T : Type) where
  render : Option (T → ℕ → String)
  getField : T → String

/-- The `totalCount` prop handed to `TableVirtuoso`
(line 1059): `onLoadMore ? data.length + 1 : data.length`. -/
def virtuosoTotalCount (hasOnLoadMore : Bool) (dataLength : ℕ) : ℕ :=
  if hasOnLoadMore then dataLength + 1 else dataLength

/-- Function `rowContent` of `VirtualDataTable.tsx`: `if (!item) return null`,
otherwise one rendered cell per column. -/
def rowContentCells {T : Type} (columns : List (ColumnSpec T)) (index : ℕ)
    (item : Option T) : Option (List String) :=
  match item with
  | none => none
  | some it =>
      some (columns.map fun c =>
        match c.render with
        | some f => f it index
        | none => c.getField it)

/-- Rendering row `index`: the virtualization engine passes
`item = data[index]`, which is `undefined` past the end of the loaded
data (in particular for the one phantom row at `index = data.length`). -/
def renderRow {T : Type} (columns : List (ColumnSpec T)) (data : List T)
    (index : ℕ) : Option (List String) :=
  rowContentCells columns index data[index]?

/-- C10: with `onLoadMore` provided the engine is told
`totalCount = data.length + 1`, and rendering any index with no backing
data item — the phantom extra row included — returns `null` rather than
failing. -/
theorem c10_phantom_row {T : Type} (columns : List (ColumnSpec T))
    (data : List T) (i : ℕ) (h : data.length ≤ i) :
    virtuosoTotalCount true data.length = data.length + 1 ∧
    rowContentCells columns i (none : Option T) = none ∧
    renderRow columns data i = none := by
  refine ⟨rfl, rfl, ?_⟩
  unfold renderRow
  rw [List.getElem?_eq_none h]
  rfl

/-- C10 witness: one loaded row, rendering the phantom row at index 1. -/
theorem c10_phantom_row_witness :
    virtuosoTotalCount true [(0 : ℕ)].length = [(0 : ℕ)].length + 1 ∧
    rowContentCells ([] : List (ColumnSpec ℕ)) 1 (none : Option ℕ) = none ∧
    renderRow ([] : List (ColumnSpec ℕ)) [0] 1 = none :=
  c10_phantom_row [] [0] 1 (by norm_num)

end VirtualTable
